import Mathlib

/-!
# Verification of the articulated-body walking simulation

Shallow embedding of the physics core of `walk.py` (Joint / Bone /
HumanSkeleton): joints are points with position and velocity stored in a
name-indexed map, bones reference their two endpoint joints by name, and the
per-frame update is modelled as a pure state transformer.  Python floats are
idealized as real numbers; `math.atan2` is `Complex.arg`, `math.sqrt` is
`Real.sqrt`, and the float modulo `%` (with positive divisor) is
`x - y * ⌊x / y⌋`.
-/

noncomputable section

namespace Walk

/-- Screen width (`WIDTH = 1200`). -/
def WIDTH : ℝ := 1200

/-- Screen height (`HEIGHT = 800`). -/
def HEIGHT : ℝ := 800

/-- `GRAVITY = 600.0`. -/
def GRAVITY : ℝ := 600

/-- `GROUND_Y = HEIGHT - 100`. -/
def GROUND_Y : ℝ := HEIGHT - 100

/-- `FRICTION = 0.85`. -/
def FRICTION : ℝ := 0.85

/-- A joint: mass-less point with position, velocity, a display name and an
optional angle-limit pair `(min, max)` (from `Joint.__init__`). -/
@[ext]
structure Joint where
  x : ℝ
  y : ℝ
  vx : ℝ
  vy : ℝ
  name : String
  angle_limits : Option (ℝ × ℝ)
deriving DecidableEq

/-- `Joint.update(dt)`: damp velocity by 0.95, advance position by
`velocity * dt`, then clamp to the ground line (zero vertical velocity,
scale horizontal velocity by `FRICTION`). -/
def Joint.update (j : Joint) (dt : ℝ) : Joint :=
  let vx := j.vx * 0.95
  let vy := j.vy * 0.95
  let x := j.x + vx * dt
  let y := j.y + vy * dt
  if y > GROUND_Y then
    { j with x := x, y := GROUND_Y, vx := vx * FRICTION, vy := 0 }
  else
    { j with x := x, y := y, vx := vx, vy := vy }

/-- `Joint.apply_force(fx, fy)`: add the force directly to the velocity. -/
def Joint.apply_force (j : Joint) (fx fy : ℝ) : Joint :=
  { j with vx := j.vx + fx, vy := j.vy + fy }

/-- The 19 keys of the skeleton's joint dictionary, one constructor per
assignment in `HumanSkeleton.create_joints`. -/
inductive JointId where
  | head | neck | chest | waist | pelvis
  | left_shoulder | left_elbow | left_hand
  | right_shoulder | right_elbow | right_hand
  | left_hip | left_knee | left_ankle | left_foot
  | right_hip | right_knee | right_ankle | right_foot
deriving DecidableEq, Fintype

/-- Joint state of the whole skeleton: the joint dictionary, modelled as a
total map from the 19 keys. -/
abbrev JointMap := JointId → Joint

/-- Euclidean distance between the two endpoint joints of a bone
(`Bone.calculate_distance`). -/
def jointDistance (js : JointMap) (j1 j2 : JointId) : ℝ :=
  let dx := (js j2).x - (js j1).x
  let dy := (js j2).y - (js j1).y
  Real.sqrt (dx * dx + dy * dy)

/-- A bone: two joint references (by key), an immutable rest length, a mass
and a display name.  The render color is dropped (rendering is out of
scope). -/
structure Bone where
  j1 : JointId
  j2 : JointId
  rest_length : ℝ
  mass : ℝ
  name : String

/-- `Bone.__init__(joint1, joint2, mass, length=None, name="")`:
`self.rest_length = length if length else self.calculate_distance()`.
Python falsiness: a supplied length of `0` (like `None`) falls back to the
computed distance between the joints. -/
def mkBone (js : JointMap) (j1 j2 : JointId) (mass : ℝ) (length : Option ℝ)
    (name : String) : Bone :=
  let rest_length :=
    match length with
    | some L => if L = 0 then jointDistance js j1 j2 else L
    | none => jointDistance js j1 j2
  { j1 := j1, j2 := j2, rest_length := rest_length, mass := mass, name := name }

/-- Replace one joint of the map by the result of `apply_force` on it
(the Python code mutates the shared joint object in place). -/
def applyForceAt (js : JointMap) (id : JointId) (fx fy : ℝ) : JointMap :=
  Function.update js id ((js id).apply_force fx fy)

/-- `Bone.apply_length_constraint`: if the current joint distance is
positive, move both endpoint joints towards/away from each other by half the
fractional length error (sequential in-place mutation of the shared joint
objects, translated as two sequential map updates). -/
def Bone.apply_length_constraint (b : Bone) (js : JointMap) : JointMap :=
  let dx := (js b.j2).x - (js b.j1).x
  let dy := (js b.j2).y - (js b.j1).y
  let current_length := Real.sqrt (dx * dx + dy * dy)
  if 0 < current_length then
    let difference := current_length - b.rest_length
    let percent := difference / current_length / 2
    let offset_x := dx * percent
    let offset_y := dy * percent
    let js1 := Function.update js b.j1
      (let p := js b.j1; { p with x := p.x + offset_x, y := p.y + offset_y })
    Function.update js1 b.j2
      (let p := js1 b.j2; { p with x := p.x - offset_x, y := p.y - offset_y })
  else js

/-- `math.atan2(y, x)` idealized over the reals: the argument of the complex
number `x + y·i`, valued in `(-π, π]`, with `atan2 0 0 = 0`. -/
def atan2 (y x : ℝ) : ℝ := ((x : ℂ) + (y : ℂ) * Complex.I).arg

/-- First normalization loop of `apply_angle_constraint`:
`while relative_angle > math.pi: relative_angle -= 2 * math.pi`. -/
def wrapDown (r : ℝ) : ℝ :=
  if Real.pi < r then wrapDown (r - 2 * Real.pi) else r
termination_by (⌈(r - Real.pi) / (2 * Real.pi)⌉).toNat
decreasing_by
  rename_i h
  have hpi := Real.pi_pos
  have h2 : (0 : ℝ) < 2 * Real.pi := by linarith
  have hstep : (r - 2 * Real.pi - Real.pi) / (2 * Real.pi)
      = (r - Real.pi) / (2 * Real.pi) - 1 := by
    field_simp
    ring
  have hceil : 0 < ⌈(r - Real.pi) / (2 * Real.pi)⌉ :=
    Int.ceil_pos.mpr (div_pos (by linarith) h2)
  rw [hstep, Int.ceil_sub_one]
  omega

/-- Second normalization loop of `apply_angle_constraint`:
`while relative_angle < -math.pi: relative_angle += 2 * math.pi`. -/
def wrapUp (r : ℝ) : ℝ :=
  if r < -Real.pi then wrapUp (r + 2 * Real.pi) else r
termination_by (⌈(-Real.pi - r) / (2 * Real.pi)⌉).toNat
decreasing_by
  rename_i h
  have hpi := Real.pi_pos
  have h2 : (0 : ℝ) < 2 * Real.pi := by linarith
  have hstep : (-Real.pi - (r + 2 * Real.pi)) / (2 * Real.pi)
      = (-Real.pi - r) / (2 * Real.pi) - 1 := by
    field_simp
    ring
  have hceil : 0 < ⌈(-Real.pi - r) / (2 * Real.pi)⌉ :=
    Int.ceil_pos.mpr (div_pos (by linarith) h2)
  rw [hstep, Int.ceil_sub_one]
  omega

theorem wrapDown_of_le {r : ℝ} (h : r ≤ Real.pi) : wrapDown r = r := by
  rw [wrapDown, if_neg (not_lt.mpr h)]

theorem wrapUp_of_le {r : ℝ} (h : -Real.pi ≤ r) : wrapUp r = r := by
  rw [wrapUp, if_neg (not_lt.mpr h)]

/-- The correction branch of `apply_angle_constraint`: compute the ideal
`joint2` position at `rest_length` oriented at `parent_angle + bound` from
`joint1`, and push `joint2` towards it with the fixed gain
`correction_force = 1.5`. -/
def angleCorrect (b : Bone) (js : JointMap) (parent_angle bound : ℝ) :
    JointMap :=
  let target_angle := parent_angle + bound
  let correction_force : ℝ := 1.5
  let target_x := (js b.j1).x + b.rest_length * Real.cos target_angle
  let target_y := (js b.j1).y + b.rest_length * Real.sin target_angle
  let force_x := (target_x - (js b.j2).x) * correction_force
  let force_y := (target_y - (js b.j2).y) * correction_force
  applyForceAt js b.j2 force_x force_y

/-- `Bone.apply_angle_constraint(parent_bone=None)`: a no-op unless `joint2`
carries angle limits and a parent bone is supplied.  The reference direction
is `joint1 - parent_bone.joint1`; if it is the zero vector the method does
nothing.  Otherwise the relative angle (normalized by the two while loops)
is compared against the limits and, when violated, `joint2` is pushed toward
the bound via `apply_force`. -/
def Bone.apply_angle_constraint (b : Bone) (parent_bone : Option Bone)
    (js : JointMap) : JointMap :=
  match (js b.j2).angle_limits, parent_bone with
  | some lims, some parent =>
      let min_angle := lims.1
      let max_angle := lims.2
      let dx1 := (js b.j1).x - (js parent.j1).x
      let dy1 := (js b.j1).y - (js parent.j1).y
      let dx2 := (js b.j2).x - (js b.j1).x
      let dy2 := (js b.j2).y - (js b.j1).y
      if dx1 ≠ 0 ∨ dy1 ≠ 0 then
        let parent_angle := atan2 dy1 dx1
        let current_angle := atan2 dy2 dx2
        let relative_angle := wrapUp (wrapDown (current_angle - parent_angle))
        if relative_angle < min_angle then
          angleCorrect b js parent_angle min_angle
        else if max_angle < relative_angle then
          angleCorrect b js parent_angle max_angle
        else js
      else js
  | _, _ => js

/-! ### Basic facts used throughout -/

theorem applyForceAt_x (js : JointMap) (id : JointId) (fx fy : ℝ)
    (id2 : JointId) : (applyForceAt js id fx fy id2).x = (js id2).x := by
  unfold applyForceAt Joint.apply_force
  by_cases h : id2 = id
  · subst h; simp
  · simp [Function.update_noteq h]

theorem applyForceAt_y (js : JointMap) (id : JointId) (fx fy : ℝ)
    (id2 : JointId) : (applyForceAt js id fx fy id2).y = (js id2).y := by
  unfold applyForceAt Joint.apply_force
  by_cases h : id2 = id
  · subst h; simp
  · simp [Function.update_noteq h]

theorem applyForceAt_same_vx (js : JointMap) (id : JointId) (fx fy : ℝ) :
    (applyForceAt js id fx fy id).vx = (js id).vx + fx := by
  simp [applyForceAt, Joint.apply_force]

theorem applyForceAt_same_vy (js : JointMap) (id : JointId) (fx fy : ℝ) :
    (applyForceAt js id fx fy id).vy = (js id).vy + fy := by
  simp [applyForceAt, Joint.apply_force]

theorem applyForceAt_noteq (js : JointMap) (id : JointId) (fx fy : ℝ)
    (id2 : JointId) (h : id2 ≠ id) :
    applyForceAt js id fx fy id2 = js id2 := by
  simp [applyForceAt, Function.update_noteq h]

theorem applyForceAt_limits (js : JointMap) (id : JointId) (fx fy : ℝ)
    (id2 : JointId) :
    (applyForceAt js id fx fy id2).angle_limits = (js id2).angle_limits := by
  unfold applyForceAt Joint.apply_force
  by_cases h : id2 = id
  · subst h; simp
  · simp [Function.update_noteq h]

/-- `HumanSkeleton.create_joints(center_x, center_y)`: the 19 joints at
their anatomically proportioned initial positions, with the angle limits
exactly as written in the source. -/
def create_joints (center_x center_y torso_length head_size upper_arm_length
    lower_arm_length upper_leg_length lower_leg_length foot_length : ℝ) :
    JointMap := fun id =>
  match id with
  | JointId.head =>
      { x := center_x, y := center_y - torso_length / 2 - head_size,
        vx := 0, vy := 0, name := "head", angle_limits := none }
  | JointId.neck =>
      { x := center_x, y := center_y - torso_length / 2, vx := 0, vy := 0,
        name := "neck",
        angle_limits := some (-(Real.pi / 16), Real.pi / 16) }
  | JointId.chest =>
      { x := center_x, y := center_y - torso_length / 4, vx := 0, vy := 0,
        name := "chest", angle_limits := some (-(Real.pi / 6), Real.pi / 6) }
  | JointId.waist =>
      { x := center_x, y := center_y, vx := 0, vy := 0, name := "waist",
        angle_limits := some (-(Real.pi / 6), Real.pi / 6) }
  | JointId.pelvis =>
      { x := center_x, y := center_y + torso_length / 4, vx := 0, vy := 0,
        name := "pelvis", angle_limits := none }
  | JointId.left_shoulder =>
      { x := center_x - 15, y := center_y - torso_length / 4, vx := 0,
        vy := 0, name := "left_shoulder",
        angle_limits := some (-(Real.pi / 2), Real.pi) }
  | JointId.left_elbow =>
      { x := center_x - 15,
        y := center_y - torso_length / 4 + upper_arm_length, vx := 0,
        vy := 0, name := "left_elbow",
        angle_limits := some (-(Real.pi / 6), Real.pi * 5 / 6) }
  | JointId.left_hand =>
      { x := center_x - 15,
        y := center_y - torso_length / 4 + upper_arm_length
          + lower_arm_length, vx := 0, vy := 0, name := "left_hand",
        angle_limits := some (-(Real.pi / 3), Real.pi / 3) }
  | JointId.right_shoulder =>
      { x := center_x + 15, y := center_y - torso_length / 4, vx := 0,
        vy := 0, name := "right_shoulder",
        angle_limits := some (-Real.pi, Real.pi / 2) }
  | JointId.right_elbow =>
      { x := center_x + 15,
        y := center_y - torso_length / 4 + upper_arm_length, vx := 0,
        vy := 0, name := "right_elbow",
        angle_limits := some (-(Real.pi * 5 / 6), Real.pi / 6) }
  | JointId.right_hand =>
      { x := center_x + 15,
        y := center_y - torso_length / 4 + upper_arm_length
          + lower_arm_length, vx := 0, vy := 0, name := "right_hand",
        angle_limits := some (-(Real.pi / 3), Real.pi / 3) }
  | JointId.left_hip =>
      { x := center_x - 10, y := center_y + torso_length / 4, vx := 0,
        vy := 0, name := "left_hip",
        angle_limits := some (-(Real.pi / 3), Real.pi / 3) }
  | JointId.left_knee =>
      { x := center_x - 10,
        y := center_y + torso_length / 4 + upper_leg_length, vx := 0,
        vy := 0, name := "left_knee",
        angle_limits := some (-(Real.pi * 2 / 3), 0) }
  | JointId.left_ankle =>
      { x := center_x - 10,
        y := center_y + torso_length / 4 + upper_leg_length
          + lower_leg_length, vx := 0, vy := 0, name := "left_ankle",
        angle_limits := some (-(Real.pi / 3), Real.pi / 3) }
  | JointId.left_foot =>
      { x := center_x - 10 + foot_length / 2,
        y := center_y + torso_length / 4 + upper_leg_length
          + lower_leg_length, vx := 0, vy := 0, name := "left_foot",
        angle_limits := none }
  | JointId.right_hip =>
      { x := center_x + 10, y := center_y + torso_length / 4, vx := 0,
        vy := 0, name := "right_hip",
        angle_limits := some (-(Real.pi / 3), Real.pi / 3) }
  | JointId.right_knee =>
      { x := center_x + 10,
        y := center_y + torso_length / 4 + upper_leg_length, vx := 0,
        vy := 0, name := "right_knee",
        angle_limits := some (-(Real.pi * 2 / 3), 0) }
  | JointId.right_ankle =>
      { x := center_x + 10,
        y := center_y + torso_length / 4 + upper_leg_length
          + lower_leg_length, vx := 0, vy := 0, name := "right_ankle",
        angle_limits := some (-(Real.pi / 3), Real.pi / 3) }
  | JointId.right_foot =>
      { x := center_x + 10 + foot_length / 2,
        y := center_y + torso_length / 4 + upper_leg_length
          + lower_leg_length, vx := 0, vy := 0, name := "right_foot",
        angle_limits := none }

/-- The anthropometric mass-fraction table of
`HumanSkeleton.calculate_segment_mass` (Winter 1990), keyed by segment
name. -/
def mass_percentages : List (String × ℝ) :=
  [("head", 0.081), ("neck", 0.014),
   ("upper_spine", 0.158), ("mid_spine", 0.102), ("lower_spine", 0.097),
   ("left_clavicle", 0.028), ("right_clavicle", 0.028),
   ("left_upper_arm", 0.028), ("right_upper_arm", 0.028),
   ("left_lower_arm", 0.022), ("right_lower_arm", 0.022),
   ("left_pelvis", 0.100), ("right_pelvis", 0.100),
   ("left_upper_leg", 0.100), ("right_upper_leg", 0.100),
   ("left_lower_leg", 0.0465), ("right_lower_leg", 0.0465),
   ("left_foot", 0.0145), ("right_foot", 0.0145)]

/-- `HumanSkeleton.calculate_segment_mass(segment_name)`:
`body_mass * mass_percentages.get(segment_name, 0.01)`. -/
def calculate_segment_mass (body_mass : ℝ) (segment_name : String) : ℝ :=
  body_mass * ((mass_percentages.lookup segment_name).getD 0.01)

/-- The local helper `create_bone` inside `HumanSkeleton.create_bones`:
length computed from the current joint positions, mass from the
anthropometric table. -/
def create_bone (js : JointMap) (body_mass : ℝ) (j1 j2 : JointId)
    (name : String) : Bone :=
  let dx := (js j2).x - (js j1).x
  let dy := (js j2).y - (js j1).y
  let length := Real.sqrt (dx * dx + dy * dy)
  let mass := calculate_segment_mass body_mass name
  mkBone js j1 j2 mass (some length) name

/-- `HumanSkeleton.create_bones`: the 18 bones, in append order. -/
def create_bones (js : JointMap) (body_mass : ℝ) : List Bone :=
  [create_bone js body_mass JointId.head JointId.neck "neck",
   create_bone js body_mass JointId.neck JointId.chest "upper_spine",
   create_bone js body_mass JointId.chest JointId.waist "mid_spine",
   create_bone js body_mass JointId.waist JointId.pelvis "lower_spine",
   create_bone js body_mass JointId.chest JointId.left_shoulder "left_clavicle",
   create_bone js body_mass JointId.left_shoulder JointId.left_elbow "left_upper_arm",
   create_bone js body_mass JointId.left_elbow JointId.left_hand "left_lower_arm",
   create_bone js body_mass JointId.chest JointId.right_shoulder "right_clavicle",
   create_bone js body_mass JointId.right_shoulder JointId.right_elbow "right_upper_arm",
   create_bone js body_mass JointId.right_elbow JointId.right_hand "right_lower_arm",
   create_bone js body_mass JointId.pelvis JointId.left_hip "left_pelvis",
   create_bone js body_mass JointId.left_hip JointId.left_knee "left_upper_leg",
   create_bone js body_mass JointId.left_knee JointId.left_ankle "left_lower_leg",
   create_bone js body_mass JointId.left_ankle JointId.left_foot "left_foot",
   create_bone js body_mass JointId.pelvis JointId.right_hip "right_pelvis",
   create_bone js body_mass JointId.right_hip JointId.right_knee "right_upper_leg",
   create_bone js body_mass JointId.right_knee JointId.right_ankle "right_lower_leg",
   create_bone js body_mass JointId.right_ankle JointId.right_foot "right_foot"]

/-- The skeleton aggregate: geometry constants fixed at construction, the
joint map, the bone list, the walking state and the tunable gains
(`HumanSkeleton.__init__`). -/
structure HumanSkeleton where
  scale : ℝ
  head_size : ℝ
  torso_length : ℝ
  upper_arm_length : ℝ
  lower_arm_length : ℝ
  upper_leg_length : ℝ
  lower_leg_length : ℝ
  foot_length : ℝ
  body_mass : ℝ
  joints : JointMap
  bones : List Bone
  walking : Bool
  walk_cycle_time : ℝ
  walk_speed : ℝ
  step_length : ℝ
  standing_balance_force : ℝ
  posture_force : ℝ

/-- `HumanSkeleton.__init__(x, y, scale)`. -/
def HumanSkeleton.init (x y scale : ℝ) : HumanSkeleton :=
  let head_size := 20 * scale
  let torso_length := 120 * scale
  let upper_arm_length := 60 * scale
  let lower_arm_length := 55 * scale
  let upper_leg_length := 80 * scale
  let lower_leg_length := 75 * scale
  let foot_length := 25 * scale
  let body_mass : ℝ := 70
  let joints := create_joints x y torso_length head_size upper_arm_length
    lower_arm_length upper_leg_length lower_leg_length foot_length
  let bones := create_bones joints body_mass
  { scale := scale, head_size := head_size, torso_length := torso_length,
    upper_arm_length := upper_arm_length,
    lower_arm_length := lower_arm_length,
    upper_leg_length := upper_leg_length,
    lower_leg_length := lower_leg_length, foot_length := foot_length,
    body_mass := body_mass, joints := joints, bones := bones,
    walking := false, walk_cycle_time := 0, walk_speed := 2,
    step_length := 40 * scale, standing_balance_force := 100,
    posture_force := 50 }

/-! ### C4: the angle constraint -/

/-- Normalization of an angle into the interval `(-π, π]` exactly as the
specification words it: the unique representative of `r` modulo `2π` lying
in `(-π, π]`.  (The code's two while loops instead land in `[-π, π]`,
keeping `-π` fixed.) -/
def specNormalize (r : ℝ) : ℝ :=
  r - 2 * Real.pi * (⌈(r - Real.pi) / (2 * Real.pi)⌉ : ℤ)

/-- The angle constraint exactly as the specification's words describe it:
identical to `Bone.apply_angle_constraint` with a parent supplied, except
that the relative angle is normalized into `(-π, π]` (`specNormalize`)
rather than by the code's while loops.  Used to refute claim C4 at an input
where the two disagree. -/
def spec_angle_constraint (b : Bone) (parent : Bone) (js : JointMap) :
    JointMap :=
  match (js b.j2).angle_limits with
  | some lims =>
      let min_angle := lims.1
      let max_angle := lims.2
      let dx1 := (js b.j1).x - (js parent.j1).x
      let dy1 := (js b.j1).y - (js parent.j1).y
      let dx2 := (js b.j2).x - (js b.j1).x
      let dy2 := (js b.j2).y - (js b.j1).y
      if dx1 ≠ 0 ∨ dy1 ≠ 0 then
        let parent_angle := atan2 dy1 dx1
        let current_angle := atan2 dy2 dx2
        let relative_angle := specNormalize (current_angle - parent_angle)
        if relative_angle < min_angle then
          angleCorrect b js parent_angle min_angle
        else if max_angle < relative_angle then
          angleCorrect b js parent_angle max_angle
        else js
      else js
  | none => js

/-- Behavioural specification of `apply_angle_constraint` for a bone whose
second joint carries the limits `(mn, mx)`: no-op without a parent, no-op
when the reference direction `joint1 - parent.joint1` is the zero vector,
no-op when the normalized relative angle is within the limits, and otherwise
a velocity push of `joint2` towards the rest-length position at the nearest
violated bound, gain 1.5.  The normalization is the code's `[-π, π]` while
loop pair. -/
def angleSpec (b parent : Bone) (js : JointMap) (mn mx : ℝ) : Prop :=
  let dx1 := (js b.j1).x - (js parent.j1).x
  let dy1 := (js b.j1).y - (js parent.j1).y
  let pa := atan2 dy1 dx1
  let rel := wrapUp (wrapDown
    (atan2 ((js b.j2).y - (js b.j1).y) ((js b.j2).x - (js b.j1).x) - pa))
  (b.apply_angle_constraint none js = js) ∧
  (dx1 = 0 ∧ dy1 = 0 → b.apply_angle_constraint (some parent) js = js) ∧
  (¬(dx1 = 0 ∧ dy1 = 0) →
    (rel < mn →
      b.apply_angle_constraint (some parent) js =
        applyForceAt js b.j2
          (((js b.j1).x + b.rest_length * Real.cos (pa + mn) - (js b.j2).x) * 1.5)
          (((js b.j1).y + b.rest_length * Real.sin (pa + mn) - (js b.j2).y) * 1.5)) ∧
    (¬rel < mn → mx < rel →
      b.apply_angle_constraint (some parent) js =
        applyForceAt js b.j2
          (((js b.j1).x + b.rest_length * Real.cos (pa + mx) - (js b.j2).x) * 1.5)
          (((js b.j1).y + b.rest_length * Real.sin (pa + mx) - (js b.j2).y) * 1.5)) ∧
    (¬rel < mn → ¬mx < rel → b.apply_angle_constraint (some parent) js = js))

/-- **C4 (amended).** Characterization of the angle constraint as the code
implements it: the relative angle is normalized into `[-π, π]` by the while
loops (a raw difference of exactly `-π` stays `-π`, where the spec's
`(-π, π]` convention would give `π`); everything else is as the claim
states. -/
theorem angle_constraint_characterization (b parent : Bone) (js : JointMap)
    (mn mx : ℝ) (hlim : (js b.j2).angle_limits = some (mn, mx)) :
    angleSpec b parent js mn mx := by
  simp only [angleSpec, Bone.apply_angle_constraint, hlim]
  refine ⟨trivial, ?_, ?_⟩
  · rintro ⟨h1, h2⟩
    have hno : ¬((js b.j1).x - (js parent.j1).x ≠ 0 ∨
        (js b.j1).y - (js parent.j1).y ≠ 0) := by
      push_neg
      exact ⟨h1, h2⟩
    rw [if_neg hno]
  · intro hne
    have hor : (js b.j1).x - (js parent.j1).x ≠ 0 ∨
        (js b.j1).y - (js parent.j1).y ≠ 0 := by
      rcases not_and_or.mp hne with h | h
      · exact Or.inl h
      · exact Or.inr h
    rw [if_pos hor]
    refine ⟨?_, ?_, ?_⟩
    · intro hlt
      rw [if_pos hlt]
      rfl
    · intro hnlt hgt
      rw [if_neg hnlt, if_pos hgt]
      rfl
    · intro hnlt hngt
      rw [if_neg hnlt, if_neg hngt]

/-- Joint state refuting claim C4 as stated: the reference direction points
along `-x` (angle `π`), the constrained bone along `+x` (angle `0`), so the
raw relative angle is exactly `-π`. -/
def cexJs : JointMap := fun id =>
  match id with
  | JointId.chest =>
      { x := 0, y := 0, vx := 0, vy := 0, name := "chest", angle_limits := none }
  | JointId.left_shoulder =>
      { x := -1, y := 0, vx := 0, vy := 0, name := "left_shoulder",
        angle_limits := none }
  | JointId.left_elbow =>
      { x := 0, y := 0, vx := 0, vy := 0, name := "left_elbow",
        angle_limits := some (-(Real.pi / 2), Real.pi / 2) }
  | _ => { x := 0, y := 0, vx := 0, vy := 0, name := "", angle_limits := none }

/-- The constrained bone of the C4 counterexample. -/
def cexChild : Bone :=
  { j1 := JointId.left_shoulder, j2 := JointId.left_elbow, rest_length := 1,
    mass := 1, name := "left_upper_arm" }

/-- The parent bone of the C4 counterexample. -/
def cexParent : Bone :=
  { j1 := JointId.chest, j2 := JointId.left_shoulder, rest_length := 1,
    mass := 1, name := "left_clavicle" }

theorem atan2_zero_neg_one : atan2 0 (-1) = Real.pi := by
  have : (((-1 : ℝ) : ℂ) + ((0 : ℝ) : ℂ) * Complex.I) = -1 := by
    push_cast
    ring
  rw [atan2, this, Complex.arg_neg_one]

theorem atan2_zero_one : atan2 0 1 = 0 := by
  have : (((1 : ℝ) : ℂ) + ((0 : ℝ) : ℂ) * Complex.I) = 1 := by
    push_cast
    ring
  rw [atan2, this, Complex.arg_one]

theorem specNormalize_neg_pi : specNormalize (-Real.pi) = Real.pi := by
  have hpi := Real.pi_ne_zero
  have hdiv : (-Real.pi - Real.pi) / (2 * Real.pi) = -1 := by
    field_simp
    ring
  rw [specNormalize, hdiv]
  have : ⌈(-1 : ℝ)⌉ = -1 := by
    rw [show (-1 : ℝ) = ((-1 : ℤ) : ℝ) by norm_num, Int.ceil_intCast]
  rw [this]
  push_cast
  ring

/-- **C4 (counterexample).** At the configuration above, the code pushes
`joint2` with vertical velocity `+3/2` (relative angle `-π` violates the
minimum bound), while the claim's `(-π, π]` normalization predicts `-3/2`
(`π` violates the maximum bound): the claim, as stated, is false. -/
theorem angle_constraint_spec_mismatch :
    ((cexChild.apply_angle_constraint (some cexParent) cexJs)
        JointId.left_elbow).vy = 3 / 2 ∧
    ((spec_angle_constraint cexChild cexParent cexJs)
        JointId.left_elbow).vy = -(3 / 2) ∧
    (3 / 2 : ℝ) ≠ -(3 / 2) := by
  have hpi := Real.pi_pos
  have hx1 : (cexJs cexChild.j1).x - (cexJs cexParent.j1).x = -1 := by
    simp [cexJs, cexChild, cexParent]
  have hy1 : (cexJs cexChild.j1).y - (cexJs cexParent.j1).y = 0 := by
    simp [cexJs, cexChild, cexParent]
  have hx2 : (cexJs cexChild.j2).x - (cexJs cexChild.j1).x = 1 := by
    simp [cexJs, cexChild]
  have hy2 : (cexJs cexChild.j2).y - (cexJs cexChild.j1).y = 0 := by
    simp [cexJs, cexChild]
  have hlim : (cexJs cexChild.j2).angle_limits
      = some (-(Real.pi / 2), Real.pi / 2) := rfl
  have hrel : atan2 ((cexJs cexChild.j2).y - (cexJs cexChild.j1).y)
        ((cexJs cexChild.j2).x - (cexJs cexChild.j1).x)
      - atan2 ((cexJs cexChild.j1).y - (cexJs cexParent.j1).y)
        ((cexJs cexChild.j1).x - (cexJs cexParent.j1).x) = -Real.pi := by
    rw [hx1, hy1, hx2, hy2, atan2_zero_neg_one, atan2_zero_one]
    ring
  have hor : (cexJs cexChild.j1).x - (cexJs cexParent.j1).x ≠ 0 ∨
      (cexJs cexChild.j1).y - (cexJs cexParent.j1).y ≠ 0 := by
    rw [hx1]
    norm_num
  refine ⟨?_, ?_, by norm_num⟩
  · -- the code side
    simp only [Bone.apply_angle_constraint, hlim]
    rw [if_pos hor, hrel, wrapDown_of_le (by linarith),
      wrapUp_of_le (le_refl _)]
    rw [if_pos (by linarith : -Real.pi < -(Real.pi / 2))]
    simp only [angleCorrect]
    rw [show JointId.left_elbow = cexChild.j2 from rfl, applyForceAt_same_vy]
    rw [hx1, hy1, atan2_zero_neg_one]
    have hangle : Real.pi + -(Real.pi / 2) = Real.pi / 2 := by ring
    rw [hangle, Real.sin_pi_div_two]
    norm_num [cexJs, cexChild]
  · -- the claim side
    simp only [spec_angle_constraint, hlim]
    rw [if_pos hor, hrel, specNormalize_neg_pi]
    rw [if_neg (by linarith : ¬Real.pi < -(Real.pi / 2))]
    rw [if_pos (by linarith : Real.pi / 2 < Real.pi)]
    simp only [angleCorrect]
    rw [show JointId.left_elbow = cexChild.j2 from rfl, applyForceAt_same_vy]
    rw [hx1, hy1, atan2_zero_neg_one]
    have hsin : Real.sin (Real.pi + Real.pi / 2) = -1 := by
      rw [Real.sin_add, Real.sin_pi, Real.cos_pi, Real.sin_pi_div_two]
      ring
    rw [hsin]
    norm_num [cexJs, cexChild]

/-- Witness for `angle_constraint_characterization` at the concrete C4
configuration: the limit hypothesis holds there. -/
theorem angle_constraint_characterization_witness :
    (cexJs cexChild.j2).angle_limits = some (-(Real.pi / 2), Real.pi / 2) ∧
    angleSpec cexChild cexParent cexJs (-(Real.pi / 2)) (Real.pi / 2) :=
  ⟨rfl, angle_constraint_characterization cexChild cexParent cexJs
    (-(Real.pi / 2)) (Real.pi / 2) rfl⟩

/-! ### C2: joint integration and the ground invariant -/

/-- **C2.** `Joint.update(dt)` first damps both velocity components by 0.95
(independently of `dt`), then adds `velocity * dt` to the position; if the
resulting `y` exceeds the ground line it clamps `y` to `GROUND_Y`, zeroes the
vertical velocity and scales the horizontal velocity by 0.85.  Consequently
every joint satisfies `y ≤ GROUND_Y` after `update`. -/
theorem joint_update_characterization_and_ground (j : Joint) (dt : ℝ) :
    (Joint.update j dt =
      if j.y + j.vy * 0.95 * dt > GROUND_Y then
        { j with x := j.x + j.vx * 0.95 * dt, y := GROUND_Y,
                 vx := j.vx * 0.95 * 0.85, vy := 0 }
      else
        { j with x := j.x + j.vx * 0.95 * dt, y := j.y + j.vy * 0.95 * dt,
                 vx := j.vx * 0.95, vy := j.vy * 0.95 }) ∧
    (Joint.update j dt).y ≤ GROUND_Y := by
  constructor
  · simp only [Joint.update, FRICTION]
  · simp only [Joint.update]
    split
    · simp
    · rename_i h
      simpa using le_of_not_lt h

/-! ### C3: the distance constraint, explicit form -/

/-- **C3.** One application of the distance constraint leaves both joints
unchanged when the current distance is zero; otherwise, with `L` the current
distance, `r` the rest length and `Δ = joint2.position - joint1.position`,
it moves `joint1` by `+((L - r)/(2L))·Δ` and `joint2` by the opposite amount
(equal 50/50 split, independent of the bone mass), leaving velocities and
all other fields as they were. -/
theorem length_constraint_characterization (b : Bone) (js : JointMap) :
    b.apply_length_constraint js =
      (let p1 := js b.j1
       let p2 := js b.j2
       let dx := p2.x - p1.x
       let dy := p2.y - p1.y
       let L := Real.sqrt (dx * dx + dy * dy)
       if L = 0 then js
       else
         Function.update
           (Function.update js b.j1
             { p1 with x := p1.x + (L - b.rest_length) / (2 * L) * dx,
                       y := p1.y + (L - b.rest_length) / (2 * L) * dy })
           b.j2
           { p2 with x := p2.x - (L - b.rest_length) / (2 * L) * dx,
                     y := p2.y - (L - b.rest_length) / (2 * L) * dy }) := by
  simp only [Bone.apply_length_constraint]
  set dx := (js b.j2).x - (js b.j1).x with hdx
  set dy := (js b.j2).y - (js b.j1).y with hdy
  set L := Real.sqrt (dx * dx + dy * dy) with hL
  by_cases hzero : L = 0
  · rw [if_neg (by rw [hzero]; exact lt_irrefl 0), if_pos hzero]
  · have hpos : 0 < L := lt_of_le_of_ne (Real.sqrt_nonneg _) (Ne.symm hzero)
    rw [if_pos hpos, if_neg hzero]
    -- the two endpoint keys must differ: otherwise the distance is zero
    have hne : b.j1 ≠ b.j2 := by
      intro he
      apply hzero
      rw [hL, hdx, hdy, he]
      simp
    have harith : ∀ d : ℝ, d * ((L - b.rest_length) / L / 2)
        = (L - b.rest_length) / (2 * L) * d := by
      intro d
      rw [div_div]
      ring
    simp only [harith]
    rw [Function.update_noteq (Ne.symm hne)]

/-! ### C10: the distance constraint preserves the midpoint and velocities -/

/-- **C10.** One application of the distance constraint leaves the midpoint
of the two endpoint positions exactly unchanged and never touches any
velocity component: it mutates positions only, symmetrically. -/
theorem length_constraint_midpoint_and_velocities (b : Bone) (js : JointMap) :
    (((b.apply_length_constraint js b.j1).x + (b.apply_length_constraint js b.j2).x) / 2
        = ((js b.j1).x + (js b.j2).x) / 2) ∧
    (((b.apply_length_constraint js b.j1).y + (b.apply_length_constraint js b.j2).y) / 2
        = ((js b.j1).y + (js b.j2).y) / 2) ∧
    (∀ id : JointId, (b.apply_length_constraint js id).vx = (js id).vx) ∧
    (∀ id : JointId, (b.apply_length_constraint js id).vy = (js id).vy) := by
  simp only [Bone.apply_length_constraint]
  set dx := (js b.j2).x - (js b.j1).x with hdx
  set dy := (js b.j2).y - (js b.j1).y with hdy
  set L := Real.sqrt (dx * dx + dy * dy) with hL
  by_cases hpos : 0 < L
  · rw [if_pos hpos]
    have hne : b.j1 ≠ b.j2 := by
      intro he
      rw [hL, hdx, hdy, he] at hpos
      simp at hpos
    refine ⟨?_, ?_, ?_, ?_⟩
    · simp [Function.update_noteq hne, Function.update_noteq (Ne.symm hne)]
    · simp [Function.update_noteq hne, Function.update_noteq (Ne.symm hne)]
    · intro id
      by_cases h2 : id = b.j2
      · subst h2; simp [Function.update_noteq (Ne.symm hne)]
      · by_cases h1 : id = b.j1
        · subst h1; simp [Function.update_noteq hne, Function.update_noteq h2]
        · simp [Function.update_noteq h1, Function.update_noteq h2]
    · intro id
      by_cases h2 : id = b.j2
      · subst h2; simp [Function.update_noteq (Ne.symm hne)]
      · by_cases h1 : id = b.j1
        · subst h1; simp [Function.update_noteq hne, Function.update_noteq h2]
        · simp [Function.update_noteq h1, Function.update_noteq h2]
  · rw [if_neg hpos]
    exact ⟨rfl, rfl, fun _ => rfl, fun _ => rfl⟩

/-! ### Force generators and the per-frame update -/

/-- Python float modulo with a positive divisor:
`x % y = x - y * floor(x / y)`. -/
def pymod (x y : ℝ) : ℝ := x - y * (⌊x / y⌋ : ℤ)

/-- `HumanSkeleton.apply_walking_forces`, translated statement by
statement; all position reads precede the velocity writes exactly as in the
source. -/
def apply_walking_forces (s : HumanSkeleton) : JointMap :=
  let js := s.joints
  let cycle_phase := pymod s.walk_cycle_time (2 * Real.pi)
  let leg_swing_amplitude := 30 * s.scale
  let arm_swing_amplitude := 20 * s.scale
  let vertical_bounce := 5 * s.scale
  let left_phase := cycle_phase
  let left_leg_offset_x := Real.sin left_phase * leg_swing_amplitude
  let left_leg_lift := max 0 (Real.sin left_phase * 15 * s.scale)
  let right_phase := cycle_phase + Real.pi
  let right_leg_offset_x := Real.sin right_phase * leg_swing_amplitude
  let right_leg_lift := max 0 (Real.sin right_phase * 15 * s.scale)
  let target_left_foot_x := (js JointId.pelvis).x - 10 + left_leg_offset_x
  let target_left_foot_y := GROUND_Y - left_leg_lift
  let target_right_foot_x := (js JointId.pelvis).x + 10 + right_leg_offset_x
  let target_right_foot_y := GROUND_Y - right_leg_lift
  let foot_force_strength : ℝ := 10.0
  let dx_left := target_left_foot_x - (js JointId.left_foot).x
  let dy_left := target_left_foot_y - (js JointId.left_foot).y
  let force_x := max (-100.0) (min 100.0 (dx_left * foot_force_strength))
  let force_y := max (-100.0) (min 100.0 (dy_left * foot_force_strength))
  let js := applyForceAt js JointId.left_foot force_x force_y
  let dx_right := target_right_foot_x - (js JointId.right_foot).x
  let dy_right := target_right_foot_y - (js JointId.right_foot).y
  let force_x2 := max (-100.0) (min 100.0 (dx_right * foot_force_strength))
  let force_y2 := max (-100.0) (min 100.0 (dy_right * foot_force_strength))
  let js := applyForceAt js JointId.right_foot force_x2 force_y2
  let left_arm_swing := Real.sin (cycle_phase + Real.pi) * arm_swing_amplitude
  let right_arm_swing := Real.sin cycle_phase * arm_swing_amplitude
  let left_force := max (-30.0) (min 30.0 (left_arm_swing * 2))
  let right_force := max (-30.0) (min 30.0 (right_arm_swing * 2))
  let js := applyForceAt js JointId.left_hand left_force 0
  let js := applyForceAt js JointId.right_hand right_force 0
  let forward_force := 5.0 * s.scale
  let js := applyForceAt js JointId.pelvis forward_force 0
  let bounce := Real.sin (cycle_phase * 2) * vertical_bounce
  let bounce_force := max (-20.0) (min 20.0 (bounce * 2))
  applyForceAt js JointId.pelvis 0 bounce_force

/-- `HumanSkeleton.maintain_standing_posture`, translated statement by
statement (foot loop unrolled over `left_foot`, `right_foot`). -/
def maintain_standing_posture (s : HumanSkeleton) : JointMap :=
  let js := s.joints
  let js := if (js JointId.left_foot).y < GROUND_Y then
      applyForceAt js JointId.left_foot 0
        (min ((GROUND_Y - (js JointId.left_foot).y)
          * s.standing_balance_force) 100.0)
    else js
  let js := if (js JointId.right_foot).y < GROUND_Y then
      applyForceAt js JointId.right_foot 0
        (min ((GROUND_Y - (js JointId.right_foot).y)
          * s.standing_balance_force) 100.0)
    else js
  let target_pelvis_x :=
    ((js JointId.left_foot).x + (js JointId.right_foot).x) / 2
  let target_pelvis_y :=
    GROUND_Y - s.upper_leg_length - s.lower_leg_length - 20
  let pelvis_force_x :=
    max (-300.0) (min 300.0
      ((target_pelvis_x - (js JointId.pelvis).x) * s.posture_force))
  let pelvis_force_y :=
    max (-300.0) (min 300.0
      ((target_pelvis_y - (js JointId.pelvis).y) * s.posture_force))
  let js := applyForceAt js JointId.pelvis pelvis_force_x pelvis_force_y
  let target_chest_x := (js JointId.pelvis).x
  let target_chest_y := (js JointId.pelvis).y - s.torso_length / 2
  let chest_force_x :=
    max (-50.0) (min 50.0
      ((target_chest_x - (js JointId.chest).x) * s.posture_force * 0.3))
  let chest_force_y :=
    max (-50.0) (min 50.0
      ((target_chest_y - (js JointId.chest).y) * s.posture_force * 0.3))
  let js := applyForceAt js JointId.chest chest_force_x chest_force_y
  let target_head_x := (js JointId.chest).x
  let target_head_y := (js JointId.chest).y - s.torso_length / 2 - s.head_size
  let error_x := target_head_x - (js JointId.head).x
  let error_y := target_head_y - (js JointId.head).y
  let dead_zone : ℝ := 2.0
  let position_error_magnitude :=
    Real.sqrt (error_x * error_x + error_y * error_y)
  if position_error_magnitude > dead_zone then
    applyForceAt js JointId.head
      (max (-20.0) (min 20.0 (error_x * s.posture_force * 0.1)))
      (max (-20.0) (min 20.0 (error_y * s.posture_force * 0.1)))
  else js

/-- One bone of `HumanSkeleton.apply_gravity_to_bones`: half of
`mass * GRAVITY * dt` added to the vertical velocity of each endpoint. -/
def gravity_bone_step (dt : ℝ) (js : JointMap) (b : Bone) : JointMap :=
  let gravity_force := b.mass * GRAVITY
  let js := applyForceAt js b.j1 0 (gravity_force * 0.5 * dt)
  applyForceAt js b.j2 0 (gravity_force * 0.5 * dt)

/-- `HumanSkeleton.apply_gravity_to_bones(dt)`: fold over the bone list. -/
def apply_gravity_to_bones (bones : List Bone) (dt : ℝ) (js : JointMap) :
    JointMap :=
  bones.foldl (gravity_bone_step dt) js

/-- The static `bone_hierarchy` table of
`HumanSkeleton.apply_angle_constraints`, in Python dict insertion order:
`(child name, (parent name, end-joint name))` — the third component is
unused by the loop, as in the source. -/
def bone_hierarchy : List (String × String × String) :=
  [("left_upper_arm", "left_clavicle", "left_elbow"),
   ("left_lower_arm", "left_upper_arm", "left_hand"),
   ("right_upper_arm", "right_clavicle", "right_elbow"),
   ("right_lower_arm", "right_upper_arm", "right_hand"),
   ("left_upper_leg", "left_pelvis", "left_knee"),
   ("left_lower_leg", "left_upper_leg", "left_ankle"),
   ("right_upper_leg", "right_pelvis", "right_knee"),
   ("right_lower_leg", "right_upper_leg", "right_ankle"),
   ("upper_spine", "lower_spine", "neck"),
   ("neck", "upper_spine", "head")]

/-- The `bone_dict` comprehension of `apply_angle_constraints`: last bone
with a given name wins, lookup yields `none` for unknown names. -/
def bone_dict_find (bones : List Bone) (name : String) : Option Bone :=
  bones.foldl (fun acc b => if b.name = name then some b else acc) none

/-- `HumanSkeleton.apply_angle_constraints`: walk the hierarchy table in
order; when both child and parent names resolve, apply the angle
constraint. -/
def apply_angle_constraints (bones : List Bone) (js : JointMap) : JointMap :=
  bone_hierarchy.foldl (fun js entry =>
    match bone_dict_find bones entry.1, bone_dict_find bones entry.2.1 with
    | some child_bone, some parent_bone =>
        child_bone.apply_angle_constraint (some parent_bone) js
    | _, _ => js) js

/-- One iteration of the relaxation loop in `HumanSkeleton.update`: all
distance constraints in bone-list order, then all angle constraints. -/
def relaxation_iteration (bones : List Bone) (js : JointMap) : JointMap :=
  apply_angle_constraints bones
    (bones.foldl (fun js b => b.apply_length_constraint js) js)

/-- `HumanSkeleton.update(dt)`: force generator (gait with phase advance, or
balance), then joint integration, then gravity, then 3 relaxation
iterations. -/
def HumanSkeleton.update (s : HumanSkeleton) (dt : ℝ) : HumanSkeleton :=
  let s1 := if s.walking then
      let sw :=
        { s with walk_cycle_time := s.walk_cycle_time + dt * s.walk_speed }
      { sw with joints := apply_walking_forces sw }
    else
      { s with joints := maintain_standing_posture s }
  let s2 := { s1 with joints := fun id => (s1.joints id).update dt }
  let s3 := { s2 with joints := apply_gravity_to_bones s2.bones dt s2.joints }
  { s3 with joints := (relaxation_iteration s3.bones)^[3] s3.joints }

/-! ### C1: the per-frame update order -/

/-- **C1.** One call to `update(dt)` performs, in order: if walking, advance
the gait phase by `dt * walk_speed` and run the gait generator, otherwise
run the balance controller (exactly one of the two, selected by the flag);
then integrate every joint; then, per bone, add the velocity increment
`(0, mass * GRAVITY * 0.5 * dt)` to each of its two endpoint joints; then
run exactly 3 relaxation iterations, each applying the distance constraint
to every bone in list order and then the angle constraints over the static
10-entry hierarchy table. -/
theorem skeleton_update_frame_order (s : HumanSkeleton) (dt : ℝ) :
    ((s.update dt).joints =
      (relaxation_iteration s.bones)^[3]
        (apply_gravity_to_bones s.bones dt
          (fun id =>
            ((if s.walking then
                apply_walking_forces
                  { s with walk_cycle_time :=
                      s.walk_cycle_time + dt * s.walk_speed }
              else maintain_standing_posture s) id).update dt))) ∧
    ((s.update dt).walk_cycle_time =
      if s.walking then s.walk_cycle_time + dt * s.walk_speed
      else s.walk_cycle_time) ∧
    ((s.update dt).walking = s.walking) ∧
    ((s.update dt).bones = s.bones) ∧
    (∀ (js : JointMap) (b : Bone), gravity_bone_step dt js b =
      applyForceAt (applyForceAt js b.j1 0 (b.mass * GRAVITY * 0.5 * dt))
        b.j2 0 (b.mass * GRAVITY * 0.5 * dt)) ∧
    (∀ (bones : List Bone) (js : JointMap), relaxation_iteration bones js =
      apply_angle_constraints bones
        (bones.foldl (fun a b => b.apply_length_constraint a) js)) ∧
    bone_hierarchy.length = 10 := by
  refine ⟨?_, ?_, ?_, ?_, fun js b => rfl, fun bones js => rfl, rfl⟩ <;>
    cases hw : s.walking <;>
    simp [HumanSkeleton.update, hw]

/-! ### C5: total skeleton mass -/

/-- **C5 (counterexample).** The total mass of a freshly constructed
skeleton is `73.43`, not the configured body mass `70`: the fractions of
the table entries actually used by the 18 bones sum to `1.049` (the
`head` entry, 8.1%, is never used because no bone is named `head`, and the
thigh fraction is counted twice, via `left_pelvis`/`right_pelvis` and via
`left_upper_leg`/`right_upper_leg`). -/
theorem skeleton_total_mass_not_body_mass :
    ((HumanSkeleton.init 600 400 1).bones.map Bone.mass).sum = 73.43 ∧
    (73.43 : ℝ) ≠ 70 := by
  constructor
  · have hmap : ((HumanSkeleton.init 600 400 1).bones.map Bone.mass) =
        [70 * 0.014, 70 * 0.158, 70 * 0.102, 70 * 0.097,
         70 * 0.028, 70 * 0.028, 70 * 0.022,
         70 * 0.028, 70 * 0.028, 70 * 0.022,
         70 * 0.100, 70 * 0.100, 70 * 0.0465, 70 * 0.0145,
         70 * 0.100, 70 * 0.100, 70 * 0.0465, 70 * 0.0145] := rfl
    rw [hmap]
    norm_num [List.sum_cons, List.sum_nil]
  · norm_num

/-- **C5 (amended).** For every construction of a skeleton, the total bone
mass is `73.43 = 1.049 × 70` — each bone gets `body_mass` times its table
fraction, and any segment name missing from the table defaults to a 1%
fraction — independent of position and scale. -/
theorem skeleton_total_mass (x y scale : ℝ) :
    ((HumanSkeleton.init x y scale).bones.map Bone.mass).sum = 73.43 ∧
    (∀ bm : ℝ, calculate_segment_mass bm "skull" = bm * 0.01) := by
  constructor
  · have hmap : ((HumanSkeleton.init x y scale).bones.map Bone.mass) =
        [70 * 0.014, 70 * 0.158, 70 * 0.102, 70 * 0.097,
         70 * 0.028, 70 * 0.028, 70 * 0.022,
         70 * 0.028, 70 * 0.028, 70 * 0.022,
         70 * 0.100, 70 * 0.100, 70 * 0.0465, 70 * 0.0145,
         70 * 0.100, 70 * 0.100, 70 * 0.0465, 70 * 0.0145] := rfl
    rw [hmap]
    norm_num [List.sum_cons, List.sum_nil]
  · intro bm
    rfl

/-! ### C6: joint and bone counts -/

/-- **C6 (counterexample).** A skeleton has 18 bones and its joint
dictionary has 19 keys — not 17 and 18 as claimed. -/
theorem skeleton_counts_not_as_claimed :
    (HumanSkeleton.init 600 400 1).bones.length = 18 ∧ (18 : ℕ) ≠ 17 ∧
    Fintype.card JointId = 19 ∧ (19 : ℕ) ≠ 18 := by
  refine ⟨rfl, by norm_num, by decide, by norm_num⟩

/-- **C6 (amended).** For every `(center_x, center_y, scale)`, constructing
a skeleton produces exactly 19 named joints (the keys of the joint map) and
exactly 18 bones in its ordered bone list. -/
theorem skeleton_counts (x y scale : ℝ) :
    (HumanSkeleton.init x y scale).bones.length = 18 ∧
    Fintype.card JointId = 19 :=
  ⟨rfl, by decide⟩

/-! ### C7: the gait force generator -/

/-- The vertical foot lift factored as the claim words it: with a
nonnegative scale, `max(0, sin φ)·(15·c)` equals the code's
`max(0, sin φ · 15 · c)`. -/
theorem max_lift_eq (φ c : ℝ) (h : 0 ≤ c) :
    max 0 (Real.sin φ) * (15 * c) = max 0 (Real.sin φ * 15 * c) := by
  have h15 : (0 : ℝ) ≤ 15 * c := by linarith
  rw [max_mul_of_nonneg _ _ h15, zero_mul, ← mul_assoc]

/-- The C7 property: with `phase` the gait phase modulo `2π`, each foot
receives on each axis a force of gain 10 against its target (left target:
`pelvis.x - 10 + sin(phase)·30·scale`, `GROUND_Y - max(0, sin phase)·15·scale`;
right: `phase + π` and the `+10` offset), clamped to `±100`; each hand
receives a horizontal-only force equal to its counter-phase arm swing times
2, clamped to `±30`, with unchanged vertical velocity. -/
def walkingForceSpec (s : HumanSkeleton) : Prop :=
  let js := s.joints
  let js2 := apply_walking_forces s
  let phase := pymod s.walk_cycle_time (2 * Real.pi)
  ((js2 JointId.left_foot).vx = (js JointId.left_foot).vx +
    max (-100.0) (min 100.0
      (((js JointId.pelvis).x - 10 + Real.sin phase * (30 * s.scale)
        - (js JointId.left_foot).x) * 10.0))) ∧
  ((js2 JointId.left_foot).vy = (js JointId.left_foot).vy +
    max (-100.0) (min 100.0
      ((GROUND_Y - max 0 (Real.sin phase) * (15 * s.scale)
        - (js JointId.left_foot).y) * 10.0))) ∧
  ((js2 JointId.right_foot).vx = (js JointId.right_foot).vx +
    max (-100.0) (min 100.0
      (((js JointId.pelvis).x + 10
        + Real.sin (phase + Real.pi) * (30 * s.scale)
        - (js JointId.right_foot).x) * 10.0))) ∧
  ((js2 JointId.right_foot).vy = (js JointId.right_foot).vy +
    max (-100.0) (min 100.0
      ((GROUND_Y - max 0 (Real.sin (phase + Real.pi)) * (15 * s.scale)
        - (js JointId.right_foot).y) * 10.0))) ∧
  ((js2 JointId.left_hand).vx = (js JointId.left_hand).vx +
    max (-30.0) (min 30.0
      (Real.sin (phase + Real.pi) * (20 * s.scale) * 2))) ∧
  ((js2 JointId.left_hand).vy = (js JointId.left_hand).vy) ∧
  ((js2 JointId.right_hand).vx = (js JointId.right_hand).vx +
    max (-30.0) (min 30.0 (Real.sin phase * (20 * s.scale) * 2))) ∧
  ((js2 JointId.right_hand).vy = (js JointId.right_hand).vy)

/-- **C7.** The gait generator applies exactly the claimed foot and hand
forces (for the skeleton's nonnegative scale). -/
theorem walking_forces_characterization (s : HumanSkeleton)
    (h : 0 ≤ s.scale) : walkingForceSpec s := by
  simp only [walkingForceSpec, max_lift_eq _ _ h]
  simp only [apply_walking_forces]
  simp only [applyForceAt_x, applyForceAt_y]
  refine ⟨?_, ?_, ?_, ?_, ?_, ?_, ?_, ?_⟩
  · rw [applyForceAt_noteq _ _ _ _ _ (by decide : JointId.left_foot ≠ JointId.pelvis),
      applyForceAt_noteq _ _ _ _ _ (by decide : JointId.left_foot ≠ JointId.pelvis),
      applyForceAt_noteq _ _ _ _ _ (by decide : JointId.left_foot ≠ JointId.right_hand),
      applyForceAt_noteq _ _ _ _ _ (by decide : JointId.left_foot ≠ JointId.left_hand),
      applyForceAt_noteq _ _ _ _ _ (by decide : JointId.left_foot ≠ JointId.right_foot),
      applyForceAt_same_vx]
  · rw [applyForceAt_noteq _ _ _ _ _ (by decide : JointId.left_foot ≠ JointId.pelvis),
      applyForceAt_noteq _ _ _ _ _ (by decide : JointId.left_foot ≠ JointId.pelvis),
      applyForceAt_noteq _ _ _ _ _ (by decide : JointId.left_foot ≠ JointId.right_hand),
      applyForceAt_noteq _ _ _ _ _ (by decide : JointId.left_foot ≠ JointId.left_hand),
      applyForceAt_noteq _ _ _ _ _ (by decide : JointId.left_foot ≠ JointId.right_foot),
      applyForceAt_same_vy]
  · rw [applyForceAt_noteq _ _ _ _ _ (by decide : JointId.right_foot ≠ JointId.pelvis),
      applyForceAt_noteq _ _ _ _ _ (by decide : JointId.right_foot ≠ JointId.pelvis),
      applyForceAt_noteq _ _ _ _ _ (by decide : JointId.right_foot ≠ JointId.right_hand),
      applyForceAt_noteq _ _ _ _ _ (by decide : JointId.right_foot ≠ JointId.left_hand),
      applyForceAt_same_vx,
      applyForceAt_noteq _ _ _ _ _ (by decide : JointId.right_foot ≠ JointId.left_foot)]
  · rw [applyForceAt_noteq _ _ _ _ _ (by decide : JointId.right_foot ≠ JointId.pelvis),
      applyForceAt_noteq _ _ _ _ _ (by decide : JointId.right_foot ≠ JointId.pelvis),
      applyForceAt_noteq _ _ _ _ _ (by decide : JointId.right_foot ≠ JointId.right_hand),
      applyForceAt_noteq _ _ _ _ _ (by decide : JointId.right_foot ≠ JointId.left_hand),
      applyForceAt_same_vy,
      applyForceAt_noteq _ _ _ _ _ (by decide : JointId.right_foot ≠ JointId.left_foot)]
  · rw [applyForceAt_noteq _ _ _ _ _ (by decide : JointId.left_hand ≠ JointId.pelvis),
      applyForceAt_noteq _ _ _ _ _ (by decide : JointId.left_hand ≠ JointId.pelvis),
      applyForceAt_noteq _ _ _ _ _ (by decide : JointId.left_hand ≠ JointId.right_hand),
      applyForceAt_same_vx,
      applyForceAt_noteq _ _ _ _ _ (by decide : JointId.left_hand ≠ JointId.right_foot),
      applyForceAt_noteq _ _ _ _ _ (by decide : JointId.left_hand ≠ JointId.left_foot)]
  · rw [applyForceAt_noteq _ _ _ _ _ (by decide : JointId.left_hand ≠ JointId.pelvis),
      applyForceAt_noteq _ _ _ _ _ (by decide : JointId.left_hand ≠ JointId.pelvis),
      applyForceAt_noteq _ _ _ _ _ (by decide : JointId.left_hand ≠ JointId.right_hand),
      applyForceAt_same_vy,
      applyForceAt_noteq _ _ _ _ _ (by decide : JointId.left_hand ≠ JointId.right_foot),
      applyForceAt_noteq _ _ _ _ _ (by decide : JointId.left_hand ≠ JointId.left_foot),
      add_zero]
  · rw [applyForceAt_noteq _ _ _ _ _ (by decide : JointId.right_hand ≠ JointId.pelvis),
      applyForceAt_noteq _ _ _ _ _ (by decide : JointId.right_hand ≠ JointId.pelvis),
      applyForceAt_same_vx,
      applyForceAt_noteq _ _ _ _ _ (by decide : JointId.right_hand ≠ JointId.left_hand),
      applyForceAt_noteq _ _ _ _ _ (by decide : JointId.right_hand ≠ JointId.right_foot),
      applyForceAt_noteq _ _ _ _ _ (by decide : JointId.right_hand ≠ JointId.left_foot)]
  · rw [applyForceAt_noteq _ _ _ _ _ (by decide : JointId.right_hand ≠ JointId.pelvis),
      applyForceAt_noteq _ _ _ _ _ (by decide : JointId.right_hand ≠ JointId.pelvis),
      applyForceAt_same_vy,
      applyForceAt_noteq _ _ _ _ _ (by decide : JointId.right_hand ≠ JointId.left_hand),
      applyForceAt_noteq _ _ _ _ _ (by decide : JointId.right_hand ≠ JointId.right_foot),
      applyForceAt_noteq _ _ _ _ _ (by decide : JointId.right_hand ≠ JointId.left_foot),
      add_zero]

/-- Witness for `walking_forces_characterization` at a freshly constructed
skeleton (scale 1). -/
theorem walking_forces_characterization_witness :
    0 ≤ (HumanSkeleton.init 600 400 1).scale ∧
    walkingForceSpec (HumanSkeleton.init 600 400 1) :=
  ⟨by norm_num [HumanSkeleton.init],
    walking_forces_characterization (HumanSkeleton.init 600 400 1)
      (by norm_num [HumanSkeleton.init])⟩

/-! ### C8: the balance controller -/

/-- The C8 property: a foot strictly above the ground line in screen
coordinates (`y < GROUND_Y`) receives a vertical force `100` times its
distance to the line, clamped to at most `100`, and no force otherwise; the
pelvis is driven with gain `50` toward the feet midpoint and the fixed
standing height, clamped to `±300` per axis; the head receives a force of
gain `50 * 0.1` clamped to `±20` only when its positional error from the
point above the chest exceeds the 2-unit dead zone. -/
def standingForceSpec (s : HumanSkeleton) : Prop :=
  let js := s.joints
  let js2 := maintain_standing_posture s
  ((js2 JointId.left_foot).vy = (js JointId.left_foot).vy +
    (if (js JointId.left_foot).y < GROUND_Y then
      min ((GROUND_Y - (js JointId.left_foot).y) * 100) 100.0 else 0)) ∧
  ((js2 JointId.left_foot).vx = (js JointId.left_foot).vx) ∧
  ((js2 JointId.right_foot).vy = (js JointId.right_foot).vy +
    (if (js JointId.right_foot).y < GROUND_Y then
      min ((GROUND_Y - (js JointId.right_foot).y) * 100) 100.0 else 0)) ∧
  ((js2 JointId.right_foot).vx = (js JointId.right_foot).vx) ∧
  ((js2 JointId.pelvis).vx = (js JointId.pelvis).vx +
    max (-300.0) (min 300.0
      ((((js JointId.left_foot).x + (js JointId.right_foot).x) / 2
        - (js JointId.pelvis).x) * 50))) ∧
  ((js2 JointId.pelvis).vy = (js JointId.pelvis).vy +
    max (-300.0) (min 300.0
      ((GROUND_Y - s.upper_leg_length - s.lower_leg_length - 20
        - (js JointId.pelvis).y) * 50))) ∧
  ((js2 JointId.head).vx = (js JointId.head).vx +
    (if Real.sqrt
        (((js JointId.chest).x - (js JointId.head).x)
          * ((js JointId.chest).x - (js JointId.head).x)
        + ((js JointId.chest).y - s.torso_length / 2 - s.head_size
            - (js JointId.head).y)
          * ((js JointId.chest).y - s.torso_length / 2 - s.head_size
            - (js JointId.head).y)) > 2.0 then
      max (-20.0) (min 20.0
        (((js JointId.chest).x - (js JointId.head).x) * 50 * 0.1))
    else 0)) ∧
  ((js2 JointId.head).vy = (js JointId.head).vy +
    (if Real.sqrt
        (((js JointId.chest).x - (js JointId.head).x)
          * ((js JointId.chest).x - (js JointId.head).x)
        + ((js JointId.chest).y - s.torso_length / 2 - s.head_size
            - (js JointId.head).y)
          * ((js JointId.chest).y - s.torso_length / 2 - s.head_size
            - (js JointId.head).y)) > 2.0 then
      max (-20.0) (min 20.0
        (((js JointId.chest).y - s.torso_length / 2 - s.head_size
          - (js JointId.head).y) * 50 * 0.1))
    else 0))

theorem ite_jointmap_apply (c : Prop) [Decidable c] (A B : JointMap)
    (id : JointId) : (if c then A else B) id = if c then A id else B id := by
  split <;> rfl

theorem ite_joint_x (c : Prop) [Decidable c] (a b : Joint) :
    (if c then a else b).x = if c then a.x else b.x := by
  split <;> rfl

theorem ite_joint_y (c : Prop) [Decidable c] (a b : Joint) :
    (if c then a else b).y = if c then a.y else b.y := by
  split <;> rfl

theorem ite_joint_vx (c : Prop) [Decidable c] (a b : Joint) :
    (if c then a else b).vx = if c then a.vx else b.vx := by
  split <;> rfl

theorem ite_joint_vy (c : Prop) [Decidable c] (a b : Joint) :
    (if c then a else b).vy = if c then a.vy else b.vy := by
  split <;> rfl

/-- **C8.** The balance controller applies exactly the claimed foot, pelvis
and head forces, for a skeleton with the constructed gains
(`standing_balance_force = 100`, `posture_force = 50`). -/
theorem standing_forces_characterization (s : HumanSkeleton)
    (hb : s.standing_balance_force = 100) (hp : s.posture_force = 50) :
    standingForceSpec s := by
  have hne_left_foot_head : ∀ (js : JointMap) (fx fy : ℝ),
      applyForceAt js JointId.head fx fy JointId.left_foot = js JointId.left_foot :=
    fun js fx fy => applyForceAt_noteq js _ fx fy _ (by decide)
  have hne_left_foot_chest : ∀ (js : JointMap) (fx fy : ℝ),
      applyForceAt js JointId.chest fx fy JointId.left_foot = js JointId.left_foot :=
    fun js fx fy => applyForceAt_noteq js _ fx fy _ (by decide)
  have hne_left_foot_pelvis : ∀ (js : JointMap) (fx fy : ℝ),
      applyForceAt js JointId.pelvis fx fy JointId.left_foot = js JointId.left_foot :=
    fun js fx fy => applyForceAt_noteq js _ fx fy _ (by decide)
  have hne_left_foot_right_foot : ∀ (js : JointMap) (fx fy : ℝ),
      applyForceAt js JointId.right_foot fx fy JointId.left_foot = js JointId.left_foot :=
    fun js fx fy => applyForceAt_noteq js _ fx fy _ (by decide)
  have hne_right_foot_head : ∀ (js : JointMap) (fx fy : ℝ),
      applyForceAt js JointId.head fx fy JointId.right_foot = js JointId.right_foot :=
    fun js fx fy => applyForceAt_noteq js _ fx fy _ (by decide)
  have hne_right_foot_chest : ∀ (js : JointMap) (fx fy : ℝ),
      applyForceAt js JointId.chest fx fy JointId.right_foot = js JointId.right_foot :=
    fun js fx fy => applyForceAt_noteq js _ fx fy _ (by decide)
  have hne_right_foot_pelvis : ∀ (js : JointMap) (fx fy : ℝ),
      applyForceAt js JointId.pelvis fx fy JointId.right_foot = js JointId.right_foot :=
    fun js fx fy => applyForceAt_noteq js _ fx fy _ (by decide)
  have hne_right_foot_left_foot : ∀ (js : JointMap) (fx fy : ℝ),
      applyForceAt js JointId.left_foot fx fy JointId.right_foot = js JointId.right_foot :=
    fun js fx fy => applyForceAt_noteq js _ fx fy _ (by decide)
  have hne_pelvis_head : ∀ (js : JointMap) (fx fy : ℝ),
      applyForceAt js JointId.head fx fy JointId.pelvis = js JointId.pelvis :=
    fun js fx fy => applyForceAt_noteq js _ fx fy _ (by decide)
  have hne_pelvis_chest : ∀ (js : JointMap) (fx fy : ℝ),
      applyForceAt js JointId.chest fx fy JointId.pelvis = js JointId.pelvis :=
    fun js fx fy => applyForceAt_noteq js _ fx fy _ (by decide)
  have hne_pelvis_right_foot : ∀ (js : JointMap) (fx fy : ℝ),
      applyForceAt js JointId.right_foot fx fy JointId.pelvis = js JointId.pelvis :=
    fun js fx fy => applyForceAt_noteq js _ fx fy _ (by decide)
  have hne_pelvis_left_foot : ∀ (js : JointMap) (fx fy : ℝ),
      applyForceAt js JointId.left_foot fx fy JointId.pelvis = js JointId.pelvis :=
    fun js fx fy => applyForceAt_noteq js _ fx fy _ (by decide)
  have hne_head_chest : ∀ (js : JointMap) (fx fy : ℝ),
      applyForceAt js JointId.chest fx fy JointId.head = js JointId.head :=
    fun js fx fy => applyForceAt_noteq js _ fx fy _ (by decide)
  have hne_head_pelvis : ∀ (js : JointMap) (fx fy : ℝ),
      applyForceAt js JointId.pelvis fx fy JointId.head = js JointId.head :=
    fun js fx fy => applyForceAt_noteq js _ fx fy _ (by decide)
  have hne_head_right_foot : ∀ (js : JointMap) (fx fy : ℝ),
      applyForceAt js JointId.right_foot fx fy JointId.head = js JointId.head :=
    fun js fx fy => applyForceAt_noteq js _ fx fy _ (by decide)
  have hne_head_left_foot : ∀ (js : JointMap) (fx fy : ℝ),
      applyForceAt js JointId.left_foot fx fy JointId.head = js JointId.head :=
    fun js fx fy => applyForceAt_noteq js _ fx fy _ (by decide)
  simp only [standingForceSpec, maintain_standing_posture, hb, hp]
  simp only [ite_jointmap_apply, ite_joint_x, ite_joint_y, ite_joint_vx,
    ite_joint_vy, applyForceAt_x, applyForceAt_y, ite_self,
    hne_left_foot_head, hne_left_foot_chest, hne_left_foot_pelvis, hne_left_foot_right_foot, hne_right_foot_head, hne_right_foot_chest, hne_right_foot_pelvis, hne_right_foot_left_foot, hne_pelvis_head, hne_pelvis_chest, hne_pelvis_right_foot, hne_pelvis_left_foot, hne_head_chest, hne_head_pelvis, hne_head_right_foot, hne_head_left_foot,
    applyForceAt_same_vx, applyForceAt_same_vy]
  refine ⟨?_, ?_, ?_, ?_, ?_, ?_, ?_, ?_⟩ <;>
    first
    | trivial
    | (split_ifs <;> simp)

/-- Witness for `standing_forces_characterization` at a freshly constructed
skeleton. -/
theorem standing_forces_characterization_witness :
    (HumanSkeleton.init 600 400 1).standing_balance_force = 100 ∧
    (HumanSkeleton.init 600 400 1).posture_force = 50 ∧
    standingForceSpec (HumanSkeleton.init 600 400 1) :=
  ⟨rfl, rfl,
    standing_forces_characterization (HumanSkeleton.init 600 400 1) rfl rfl⟩

/-! ### C9: rest length and explicit zero length -/

/-- Joint state for the C9 counterexample: two joints at distance 5. -/
def zeroLenJs : JointMap := fun id =>
  match id with
  | JointId.head =>
      { x := 0, y := 0, vx := 0, vy := 0, name := "a", angle_limits := none }
  | JointId.neck =>
      { x := 3, y := 4, vx := 0, vy := 0, name := "b", angle_limits := none }
  | _ => { x := 0, y := 0, vx := 0, vy := 0, name := "", angle_limits := none }

/-- **C9 (counterexample).** Constructing a bone between two distinct
joints (at distance 5) while explicitly passing `length = 0` yields rest
length 5, not 0: Python's `length if length else self.calculate_distance()`
treats an explicit 0 as absent and falls back to the computed distance. -/
theorem bone_explicit_zero_length_counterexample :
    (mkBone zeroLenJs JointId.head JointId.neck 1 (some 0) "ab").rest_length
      = 5 ∧ (5 : ℝ) ≠ 0 := by
  constructor
  · have h1 : (mkBone zeroLenJs JointId.head JointId.neck 1 (some 0)
        "ab").rest_length = Real.sqrt (3 * 3 + 4 * 4) := by
      simp [mkBone, jointDistance, zeroLenJs]
    rw [h1, show (3 * 3 + 4 * 4 : ℝ) = 5 ^ 2 by norm_num,
      Real.sqrt_sq (by norm_num : (0 : ℝ) ≤ 5)]
  · norm_num

/-- **C9 (amended).** A bone constructed with an explicit nonzero length
keeps that length; an explicit length of 0 (or an omitted length) falls
back to the computed joint distance, which is strictly positive whenever
the two endpoint positions differ — so a zero rest length arises only from
coincident endpoints, never from an explicit 0 between distinct joints. -/
theorem bone_rest_length_characterization (js : JointMap) (j1 j2 : JointId)
    (m L : ℝ) (name : String)
    (h : (js j1).x ≠ (js j2).x ∨ (js j1).y ≠ (js j2).y) :
    (mkBone js j1 j2 m (some 0) name).rest_length = jointDistance js j1 j2 ∧
    0 < (mkBone js j1 j2 m (some 0) name).rest_length ∧
    (L ≠ 0 → (mkBone js j1 j2 m (some L) name).rest_length = L) ∧
    (mkBone js j1 j2 m none name).rest_length = jointDistance js j1 j2 := by
  have hzero : (mkBone js j1 j2 m (some 0) name).rest_length
      = jointDistance js j1 j2 := by
    simp [mkBone]
  have hpos : 0 < jointDistance js j1 j2 := by
    rw [jointDistance]
    apply Real.sqrt_pos.mpr
    rcases h with h | h
    · have hdx : (js j2).x - (js j1).x ≠ 0 := sub_ne_zero.mpr (Ne.symm h)
      have h1 : 0 < ((js j2).x - (js j1).x) * ((js j2).x - (js j1).x) :=
        mul_self_pos.mpr hdx
      have h2 : 0 ≤ ((js j2).y - (js j1).y) * ((js j2).y - (js j1).y) :=
        mul_self_nonneg _
      linarith
    · have hdy : (js j2).y - (js j1).y ≠ 0 := sub_ne_zero.mpr (Ne.symm h)
      have h1 : 0 < ((js j2).y - (js j1).y) * ((js j2).y - (js j1).y) :=
        mul_self_pos.mpr hdy
      have h2 : 0 ≤ ((js j2).x - (js j1).x) * ((js j2).x - (js j1).x) :=
        mul_self_nonneg _
      linarith
  refine ⟨hzero, hzero ▸ hpos, fun hL => ?_, rfl⟩
  simp [mkBone, hL]

/-- Witness for `bone_rest_length_characterization` at the concrete C9
joint state (positions `(0,0)` and `(3,4)`, explicit length 2). -/
theorem bone_rest_length_characterization_witness :
    ((zeroLenJs JointId.head).x ≠ (zeroLenJs JointId.neck).x ∨
      (zeroLenJs JointId.head).y ≠ (zeroLenJs JointId.neck).y) ∧
    ((mkBone zeroLenJs JointId.head JointId.neck 1 (some 0) "c").rest_length
        = jointDistance zeroLenJs JointId.head JointId.neck ∧
      0 < (mkBone zeroLenJs JointId.head JointId.neck 1 (some 0)
        "c").rest_length ∧
      ((2 : ℝ) ≠ 0 → (mkBone zeroLenJs JointId.head JointId.neck 1 (some 2)
        "c").rest_length = 2) ∧
      (mkBone zeroLenJs JointId.head JointId.neck 1 none "c").rest_length
        = jointDistance zeroLenJs JointId.head JointId.neck) :=
  ⟨Or.inl (by norm_num [zeroLenJs]),
    bone_rest_length_characterization zeroLenJs JointId.head JointId.neck 1 2
      "c" (Or.inl (by norm_num [zeroLenJs]))⟩

end Walk
